import Mathlib

/-!
Shallow embedding of `src/smarttalkwith-voice/src/App.tsx`, the single
source file of the repository: a vocabulary-learning single-page app with
two in-memory collections (words, generated sentences), localStorage
persistence, case-insensitive search, and two AI-backed handlers
(`handleSaveWord`, `handleGenerateSentence`).

Modelling conventions:
* JS strings are Lean `String`; `trim`, `toLowerCase`, `split('\n')` and
  `includes` are modelled by executable functions over the character list
  (`jsTrim`, `jsToLower`, `jsSplitNewline`, `jsIncludes` below).
* `JSON.stringify` / `JSON.parse` are platform primitives, not code of the
  repository; the serialized text is therefore modelled by its abstract
  syntax tree (`Json` below), `stringify` as building the tree and `parse`
  as reading it back.
* The network and the clock are inputs: each handler takes the outcome of
  its AI call (`TranslateOutcome` / `GenOutcome`) and the freshly generated
  id (`Date.now().toString()`) as explicit arguments.
* React state updates are modelled by a record `AppState`; the
  `useEffect` persistence hooks fire exactly when `setWords` /
  `setGeneratedSentences` is called, so the handlers update the stored
  snapshot in exactly those branches.
-/

namespace SmartTalk

/-- Abstract syntax of the JSON texts exchanged with localStorage;
`JSON.stringify` is modelled as producing a `Json` tree and `JSON.parse`
as consuming one. -/
inductive Json where
  | str (s : String)
  | arr (elems : List Json)
  | obj (fields : List (String × Json))

/-- Read a JSON string value. -/
def Json.getStr? : Json → Option String
  | .str s => some s
  | _ => none

/-- Look a key up in a JSON object's field list. -/
def lookupField : List (String × Json) → String → Option Json
  | [], _ => none
  | (k, v) :: rest, key => if k == key then some v else lookupField rest key

/-- Read a named field of a JSON object. -/
def Json.getField? : Json → String → Option Json
  | .obj fs, key => lookupField fs key
  | _, _ => none

/-- The `Word` interface of `App.tsx`: a stored vocabulary entry. -/
structure Word where
  id : String
  myanmar : String
  indonesian : String
  type : String
  deriving DecidableEq, Repr

/-- The `Sentence` interface of `App.tsx`: a stored generated sentence pair. -/
structure Sentence where
  id : String
  myanmar : String
  indonesian : String
  deriving DecidableEq, Repr

/-- `JSON.stringify` of one word record. -/
def Word.toJson (w : Word) : Json :=
  .obj [("id", .str w.id), ("myanmar", .str w.myanmar),
        ("indonesian", .str w.indonesian), ("type", .str w.type)]

/-- `JSON.parse` of one word record, as the load effect consumes it. -/
def Word.fromJson? (j : Json) : Option Word := do
  let i ← (j.getField? "id").bind Json.getStr?
  let m ← (j.getField? "myanmar").bind Json.getStr?
  let n ← (j.getField? "indonesian").bind Json.getStr?
  let t ← (j.getField? "type").bind Json.getStr?
  pure ⟨i, m, n, t⟩

/-- `JSON.stringify` of one sentence record. -/
def Sentence.toJson (s : Sentence) : Json :=
  .obj [("id", .str s.id), ("myanmar", .str s.myanmar),
        ("indonesian", .str s.indonesian)]

/-- `JSON.parse` of one sentence record. -/
def Sentence.fromJson? (j : Json) : Option Sentence := do
  let i ← (j.getField? "id").bind Json.getStr?
  let m ← (j.getField? "myanmar").bind Json.getStr?
  let n ← (j.getField? "indonesian").bind Json.getStr?
  pure ⟨i, m, n⟩

/-- Elementwise decoding of a JSON array of word records. -/
def decodeWords : List Json → Option (List Word)
  | [] => some []
  | j :: rest => do
    let w ← Word.fromJson? j
    let ws ← decodeWords rest
    pure (w :: ws)

/-- Elementwise decoding of a JSON array of sentence records. -/
def decodeSentences : List Json → Option (List Sentence)
  | [] => some []
  | j :: rest => do
    let s ← Sentence.fromJson? j
    let ss ← decodeSentences rest
    pure (s :: ss)

/-- `JSON.stringify(words)`, as written by the persistence effect. -/
def wordsToJson (ws : List Word) : Json := .arr (ws.map Word.toJson)

/-- `JSON.parse(storedWords)` read back as a word list, as the load effect does. -/
def wordsFromJson? : Json → Option (List Word)
  | .arr es => decodeWords es
  | _ => none

/-- `JSON.stringify(generatedSentences)`, as written by the persistence effect. -/
def sentencesToJson (ss : List Sentence) : Json := .arr (ss.map Sentence.toJson)

/-- `JSON.parse(storedSentences)` read back as a sentence list. -/
def sentencesFromJson? : Json → Option (List Sentence)
  | .arr es => decodeSentences es
  | _ => none

/-- JS `s.trim()`: drop whitespace from both ends. -/
def jsTrim (s : String) : String :=
  ⟨((s.data.dropWhile Char.isWhitespace).reverse.dropWhile Char.isWhitespace).reverse⟩

/-- JS `s.toLowerCase()`, characterwise. -/
def jsToLower (s : String) : String := ⟨s.data.map Char.toLower⟩

/-- Split a character list at newline characters; an empty input yields one
empty segment, matching JS `"".split('\n')`. -/
def splitLinesAux : List Char → List (List Char)
  | [] => [[]]
  | c :: rest =>
    if c = '\n' then [] :: splitLinesAux rest
    else
      match splitLinesAux rest with
      | [] => [[c]]
      | l :: ls => (c :: l) :: ls

/-- JS `s.split('\n')`. -/
def jsSplitNewline (s : String) : List String := (splitLinesAux s.data).map (⟨·⟩)

/-- JS `s.includes(pat)`: `pat` occurs contiguously inside `s`. -/
def jsIncludes (s pat : String) : Bool := decide (pat.data <:+: s.data)

/-- JS `x || d` for a possibly-undefined string `x` (`none` is `undefined`);
the empty string is falsy. -/
def jsOr : Option String → String → String
  | some s, d => if s.isEmpty then d else s
  | none, d => d

/-- The React state of `App`, together with the two localStorage snapshots
kept in sync by the persistence effects. -/
structure AppState where
  newMyanmarWord : String
  words : List Word
  searchTerm : String
  generatedSentences : List Sentence
  loading : Bool
  error : Option String
  storedWords : Json
  storedSentences : Json

/-- The error string set by both handlers when the client is not configured. -/
def apiKeyMissingMsg : String := "API Key is missing. Please configure GEMINI_API_KEY."

/-- The error string of the word-count gate in `handleGenerateSentence`. -/
def insufficientWordsMsg : String := "Please add at least two words to generate a sentence."

/-- The error string of the catch block of `handleGenerateSentence`. -/
def genFailureMsg : String := "Failed to generate sentence. Please try again."

/-- Outcome of the translate call in `handleSaveWord`: the API call threw,
`JSON.parse(response.text)` threw, or the response parsed to the JSON object
with string fields `indonesianTranslation` and `wordType`. The `msg`
carried by the failure cases is the error message the catch block computes
from the thrown value. -/
inductive TranslateOutcome where
  | apiError (msg : String)
  | parseError (msg : String)
  | parsed (indonesianTranslation wordType : String)

/-- Outcome of the generate-content call in `handleGenerateSentence`. -/
inductive GenOutcome where
  | failure
  | success (text : String)

/-- `handleSaveWord` of `App.tsx`, with the AI outcome and the generated id
(`Date.now().toString()`) as explicit inputs. -/
def handleSaveWord (st : AppState) (aiAvailable : Bool)
    (outcome : TranslateOutcome) (newId : String) : AppState :=
  if (jsTrim st.newMyanmarWord).data.isEmpty then st
  else
    let st1 := { st with loading := true, error := none }
    if !aiAvailable then
      { st1 with error := some apiKeyMissingMsg, loading := false }
    else
      match outcome with
      | .apiError msg => { st1 with error := some msg, loading := false }
      | .parseError msg => { st1 with error := some msg, loading := false }
      | .parsed t c =>
        let newWord : Word :=
          { id := newId, myanmar := st.newMyanmarWord, indonesian := t, type := c }
        let ws := newWord :: st.words
        { st1 with words := ws, storedWords := wordsToJson ws,
                   newMyanmarWord := "", loading := false }

/-- `handleDeleteWord` of `App.tsx`. -/
def handleDeleteWord (st : AppState) (targetId : String) : AppState :=
  let ws := st.words.filter (fun w => w.id != targetId)
  { st with words := ws, storedWords := wordsToJson ws }

/-- `filteredWords`'s per-word predicate:
`word.myanmar.toLowerCase().includes(searchTerm.toLowerCase()) || word.indonesian.toLowerCase().includes(searchTerm.toLowerCase())`. -/
def wordMatches (searchTerm : String) (word : Word) : Bool :=
  jsIncludes (jsToLower word.myanmar) (jsToLower searchTerm) ||
  jsIncludes (jsToLower word.indonesian) (jsToLower searchTerm)

/-- `filteredWords` of `App.tsx`, the derived list the Word Bank renders. -/
def filteredWords (searchTerm : String) (words : List Word) : List Word :=
  words.filter (wordMatches searchTerm)

/-- `handleGenerateSentence` of `App.tsx`. The random subset selection only
shapes the prompt, never the stored record, so it is absorbed into the
outcome. -/
def handleGenerateSentence (st : AppState) (aiAvailable : Bool)
    (outcome : GenOutcome) (newId : String) : AppState :=
  if !aiAvailable then
    { st with error := some apiKeyMissingMsg, loading := false }
  else if st.words.length < 2 then
    { st with error := some insufficientWordsMsg }
  else
    let st1 := { st with loading := true, error := none }
    match outcome with
    | .failure => { st1 with error := some genFailureMsg, loading := false }
    | .success text =>
      let parts := (jsSplitNewline text).map jsTrim
      let newSentence : Sentence :=
        { id := newId, myanmar := jsOr parts[0]? "", indonesian := jsOr parts[1]? "" }
      let ss := newSentence :: st.generatedSentences
      { st1 with generatedSentences := ss, storedSentences := sentencesToJson ss,
                 loading := false }

/-- `handleDeleteSentence` of `App.tsx`. -/
def handleDeleteSentence (st : AppState) (targetId : String) : AppState :=
  let ss := st.generatedSentences.filter (fun s => s.id != targetId)
  { st with generatedSentences := ss, storedSentences := sentencesToJson ss }

/-- The user actions that touch the stores: the four handlers plus typing in
the search box (`onChange` of the search input). -/
inductive Action where
  | saveWord (aiAvailable : Bool) (outcome : TranslateOutcome) (newId : String)
  | deleteWord (targetId : String)
  | generateSentence (aiAvailable : Bool) (outcome : GenOutcome) (newId : String)
  | deleteSentence (targetId : String)
  | setSearchTerm (term : String)

/-- One event-loop turn of the app. -/
def step (st : AppState) : Action → AppState
  | .saveWord avail outcome newId => handleSaveWord st avail outcome newId
  | .deleteWord targetId => handleDeleteWord st targetId
  | .generateSentence avail outcome newId => handleGenerateSentence st avail outcome newId
  | .deleteSentence targetId => handleDeleteSentence st targetId
  | .setSearchTerm term => { st with searchTerm := term }

/-- The persistence invariant the save effects maintain: each localStorage
snapshot is the serialization of the current collection. -/
def StorageInv (st : AppState) : Prop :=
  st.storedWords = wordsToJson st.words ∧
  st.storedSentences = sentencesToJson st.generatedSentences

/-- A concrete word record for witnesses. -/
def w1 : Word := { id := "w1", myanmar := "sa", indonesian := "makan", type := "Verb" }

/-- A second concrete word record for witnesses. -/
def w2 : Word := { id := "w2", myanmar := "thwa", indonesian := "pergi", type := "Verb" }

/-- A concrete reachable state with two words, used by the witnesses. -/
def sampleState : AppState :=
  { newMyanmarWord := "ye", words := [w1, w2], searchTerm := "",
    generatedSentences := [], loading := false, error := none,
    storedWords := wordsToJson [w1, w2], storedSentences := sentencesToJson [] }

/-- The sample state with an empty word collection. -/
def emptyWordsState : AppState := { sampleState with words := [], storedWords := wordsToJson [] }

/-- The sample state with two distinct records carrying the same id, as two
saves within one millisecond of `Date.now()` would produce. -/
def dupState : AppState :=
  { sampleState with
    words := [{ w1 with id := "dup" }, { w2 with id := "dup" }],
    storedWords := wordsToJson [{ w1 with id := "dup" }, { w2 with id := "dup" }] }

theorem word_roundtrip (w : Word) : Word.fromJson? (Word.toJson w) = some w := rfl

theorem sentence_roundtrip (s : Sentence) :
    Sentence.fromJson? (Sentence.toJson s) = some s := rfl

theorem words_roundtrip (ws : List Word) :
    wordsFromJson? (wordsToJson ws) = some ws := by
  suffices h : decodeWords (ws.map Word.toJson) = some ws by
    simpa [wordsFromJson?, wordsToJson] using h
  induction ws with
  | nil => rfl
  | cons w ws ih => simp [decodeWords, word_roundtrip, ih]

theorem sentences_roundtrip (ss : List Sentence) :
    sentencesFromJson? (sentencesToJson ss) = some ss := by
  suffices h : decodeSentences (ss.map Sentence.toJson) = some ss by
    simpa [sentencesFromJson?, sentencesToJson] using h
  induction ss with
  | nil => rfl
  | cons s ss ih => simp [decodeSentences, sentence_roundtrip, ih]

theorem filter_key_ne_of_nodup {α : Type} (key : α → String) (t : String) :
    ∀ l : List α, (l.map key).Nodup →
      (t ∈ l.map key → (l.filter (fun x => key x != t)).length + 1 = l.length) ∧
      (t ∉ l.map key → l.filter (fun x => key x != t) = l)
  | [], _ => ⟨by simp, by simp⟩
  | x :: l, h => by
    rw [List.map_cons, List.nodup_cons] at h
    obtain ⟨hx, hl⟩ := h
    have ih := filter_key_ne_of_nodup key t l hl
    by_cases hxt : key x = t
    · subst hxt
      refine ⟨fun _ => ?_, fun hc => absurd (by simp) hc⟩
      rw [List.filter_cons_of_neg (by simp), ih.2 hx]
      simp
    · constructor
      · intro hmem
        rw [List.map_cons] at hmem
        rcases List.mem_cons.mp hmem with h1 | h2
        · exact absurd h1.symm hxt
        · rw [List.filter_cons_of_pos (by simpa using hxt)]
          simpa using ih.1 h2
      · intro hmem
        rw [List.filter_cons_of_pos (by simpa using hxt),
            ih.2 (fun hc => hmem (by simp [hc]))]

/-- C1: a translate invocation whose response parses to the JSON object with
string fields `indonesianTranslation = t` and `wordType = c` leaves the word
collection equal to the old one with exactly one new record prepended, whose
myanmar field is the entered input, indonesian field is `t`, type field is
`c`, and id is the freshly generated one; every existing record is kept
unchanged. -/
theorem saveWord_success_prepends_record (st : AppState) (t c newId : String)
    (hne : (jsTrim st.newMyanmarWord).data.isEmpty = false) :
    (step st (.saveWord true (.parsed t c) newId)).words =
      { id := newId, myanmar := st.newMyanmarWord, indonesian := t, type := c } :: st.words := by
  simp [step, handleSaveWord, hne]

/-- Witness for C1 at a concrete state and response. -/
theorem saveWord_success_prepends_record_witness :
    (step sampleState (.saveWord true (.parsed "air" "Noun") "99")).words =
      { id := "99", myanmar := "ye", indonesian := "air", type := "Noun" } :: sampleState.words :=
  saveWord_success_prepends_record sampleState "air" "Noun" "99" (by decide)

/-- C2: serialization round-trips (deserializing what a save effect wrote
yields an equal collection), and every action of the app preserves the
invariant that each localStorage snapshot is the serialization of the exact
current post-mutation collection. -/
theorem mutations_keep_storage_serialized_and_roundtrip :
    (∀ ws : List Word, wordsFromJson? (wordsToJson ws) = some ws) ∧
    (∀ ss : List Sentence, sentencesFromJson? (sentencesToJson ss) = some ss) ∧
    (∀ (st : AppState) (a : Action), StorageInv st → StorageInv (step st a)) := by
  refine ⟨words_roundtrip, sentences_roundtrip, ?_⟩
  rintro st a ⟨hw, hs⟩
  cases a with
  | saveWord avail outcome newId =>
    cases outcome <;> simp only [step, handleSaveWord, StorageInv] <;>
      split <;> (try split) <;> simp_all
  | deleteWord targetId => exact ⟨rfl, hs⟩
  | generateSentence avail outcome newId =>
    cases outcome <;> simp only [step, handleGenerateSentence, StorageInv] <;>
      split <;> (try split) <;> simp_all
  | deleteSentence targetId => exact ⟨hw, rfl⟩
  | setSearchTerm term => exact ⟨hw, hs⟩

/-- Witness for C2 at a concrete state and mutation. -/
theorem mutations_keep_storage_serialized_and_roundtrip_witness :
    StorageInv (step sampleState (.deleteWord "w1")) :=
  mutations_keep_storage_serialized_and_roundtrip.2.2 sampleState (.deleteWord "w1") ⟨rfl, rfl⟩

/-- C3 counterexample: in a collection of two records sharing an id, deleting
that id removes both records, not exactly one, although a record with that id
is present. -/
theorem deleteWord_duplicate_id_removes_two :
    "dup" ∈ dupState.words.map Word.id ∧
    dupState.words.length = 2 ∧
    (step dupState (.deleteWord "dup")).words.length = 0 := by
  refine ⟨by decide, by decide, by decide⟩

/-- C3 (amended): when the ids in the collection are pairwise distinct,
deleting an id removes exactly one record when a record with that id is
present and none when absent, and the survivors keep their relative order;
likewise for sentences. -/
theorem delete_removes_exactly_one (st : AppState) (targetId : String)
    (hw : (st.words.map Word.id).Nodup)
    (hs : (st.generatedSentences.map Sentence.id).Nodup) :
    ((targetId ∈ st.words.map Word.id →
        (step st (.deleteWord targetId)).words.length + 1 = st.words.length) ∧
     (targetId ∉ st.words.map Word.id →
        (step st (.deleteWord targetId)).words = st.words) ∧
     (step st (.deleteWord targetId)).words.Sublist st.words) ∧
    ((targetId ∈ st.generatedSentences.map Sentence.id →
        (step st (.deleteSentence targetId)).generatedSentences.length + 1 =
          st.generatedSentences.length) ∧
     (targetId ∉ st.generatedSentences.map Sentence.id →
        (step st (.deleteSentence targetId)).generatedSentences = st.generatedSentences) ∧
     (step st (.deleteSentence targetId)).generatedSentences.Sublist st.generatedSentences) := by
  have hw' := filter_key_ne_of_nodup Word.id targetId st.words hw
  have hs' := filter_key_ne_of_nodup Sentence.id targetId st.generatedSentences hs
  exact ⟨⟨hw'.1, hw'.2, List.filter_sublist _⟩, ⟨hs'.1, hs'.2, List.filter_sublist _⟩⟩

/-- Witness for the amended C3: a present id removes one word; an absent id
leaves the sentences unchanged. -/
theorem delete_removes_exactly_one_witness :
    (step sampleState (.deleteWord "w1")).words.length + 1 = sampleState.words.length ∧
    (step sampleState (.deleteSentence "zzz")).generatedSentences =
      sampleState.generatedSentences := by
  have h := delete_removes_exactly_one sampleState "w1" (by decide) (by decide)
  have h2 := delete_removes_exactly_one sampleState "zzz" (by decide) (by decide)
  exact ⟨h.1.1 (by decide), h2.2.2.1 (by decide)⟩

/-- C4: adding a word places the new record at index 0 and keeps all previous
records after it in their original order; adding a generated sentence does
the same to the sentence collection. -/
theorem add_prepends_at_index_zero :
    (∀ (st : AppState) (t c newId : String),
        (jsTrim st.newMyanmarWord).data.isEmpty = false →
        (step st (.saveWord true (.parsed t c) newId)).words.head? =
          some { id := newId, myanmar := st.newMyanmarWord, indonesian := t, type := c } ∧
        (step st (.saveWord true (.parsed t c) newId)).words.tail = st.words) ∧
    (∀ (st : AppState) (text newId : String), ¬ st.words.length < 2 →
        ((step st (.generateSentence true (.success text) newId)).generatedSentences.head?.map
            Sentence.id = some newId) ∧
        (step st (.generateSentence true (.success text) newId)).generatedSentences.tail =
          st.generatedSentences) := by
  constructor
  · intro st t c newId hne
    simp [step, handleSaveWord, hne]
  · intro st text newId h
    simp [step, handleGenerateSentence, h]

/-- Witness for C4 at a concrete state. -/
theorem add_prepends_at_index_zero_witness :
    (step sampleState (.saveWord true (.parsed "air" "Noun") "99")).words.tail =
      sampleState.words ∧
    (step sampleState (.generateSentence true (.success "x\ny") "9")).generatedSentences.tail =
      sampleState.generatedSentences :=
  ⟨(add_prepends_at_index_zero.1 sampleState "air" "Noun" "99" (by decide)).2,
   (add_prepends_at_index_zero.2 sampleState "x\ny" "9" (by decide)).2⟩

/-- C5 counterexample: with fewer than two words and no configured API key,
generation reports the configuration error, not the input-validation error,
because the missing-key check precedes the word-count gate. -/
theorem generate_few_words_without_key_not_validation :
    emptyWordsState.words.length < 2 ∧
    (step emptyWordsState (.generateSentence false .failure "9")).error = some apiKeyMissingMsg ∧
    some apiKeyMissingMsg ≠ some insufficientWordsMsg := by
  refine ⟨by decide, by decide, by decide⟩

/-- C5 (amended): when the AI client is configured, generation with fewer
than two words yields, for every possible AI outcome, exactly the old state
with the validation error set; in particular the AI Gateway result is never
consulted and both collections are unchanged. -/
theorem generate_gated_when_configured (st : AppState) (outcome : GenOutcome) (newId : String)
    (h : st.words.length < 2) :
    step st (.generateSentence true outcome newId) =
      { st with error := some insufficientWordsMsg } := by
  cases outcome <;> simp [step, handleGenerateSentence, h]

/-- Witness for the amended C5 at a concrete state. -/
theorem generate_gated_when_configured_witness :
    step emptyWordsState (.generateSentence true .failure "9") =
      { emptyWordsState with error := some insufficientWordsMsg } :=
  generate_gated_when_configured emptyWordsState .failure "9" (by decide)

/-- C6 counterexample: for the response text with first line "a " the stored
source field is the trimmed "a", not the raw first newline-delimited line. -/
theorem generate_field_differs_from_raw_line :
    (jsSplitNewline "a \nb")[0]? = some "a " ∧
    ((step sampleState (.generateSentence true (.success "a \nb") "9")).generatedSentences.head?.map
        Sentence.myanmar) = some "a" ∧
    some "a" ≠ some ("a " : String) := by
  refine ⟨by decide, by decide, by decide⟩

/-- C6 (amended): the new sentence record's fields are the trimmed first and
trimmed second newline-delimited lines of the response, and a missing line
degrades to the empty string rather than a failure. -/
theorem generate_fields_from_trimmed_lines (st : AppState) (text newId : String)
    (h : ¬ st.words.length < 2) :
    (step st (.generateSentence true (.success text) newId)).generatedSentences =
      { id := newId,
        myanmar := jsOr ((jsSplitNewline text)[0]?.map jsTrim) "",
        indonesian := jsOr ((jsSplitNewline text)[1]?.map jsTrim) "" } :: st.generatedSentences ∧
    ((jsSplitNewline text).length < 2 →
      (step st (.generateSentence true (.success text) newId)).generatedSentences.head?.map
          Sentence.indonesian = some "") := by
  constructor
  · simp [step, handleGenerateSentence, h, List.getElem?_map]
  · intro hlen
    have h1 : ((jsSplitNewline text).map jsTrim)[1]? = none := by
      apply List.getElem?_eq_none
      simp only [List.length_map]
      omega
    simp [step, handleGenerateSentence, h, h1, jsOr]

/-- Witness for the amended C6 at the response text of the spec's example. -/
theorem generate_fields_from_trimmed_lines_witness :
    (step sampleState
        (.generateSentence true (.success "မင်္ဂလာပါ\nSelamat pagi") "9")).generatedSentences =
      [{ id := "9", myanmar := "မင်္ဂလာပါ", indonesian := "Selamat pagi" }] :=
  (generate_fields_from_trimmed_lines sampleState "မင်္ဂလာပါ\nSelamat pagi" "9" (by decide)).1

/-- C7: search returns exactly the records one of whose two text fields
contains the term case-insensitively, keeps them in their original order (a
sublist), and changing the search term never modifies the word collection. -/
theorem search_characterization :
    (∀ (term : String) (ws : List Word) (w : Word),
        w ∈ filteredWords term ws ↔
          w ∈ ws ∧ ((jsToLower term).data <:+: (jsToLower w.myanmar).data ∨
                    (jsToLower term).data <:+: (jsToLower w.indonesian).data)) ∧
    (∀ (term : String) (ws : List Word), (filteredWords term ws).Sublist ws) ∧
    (∀ (st : AppState) (term : String), (step st (.setSearchTerm term)).words = st.words) := by
  refine ⟨?_, ?_, ?_⟩
  · intro term ws w
    simp [filteredWords, wordMatches, jsIncludes, List.mem_filter]
  · intro term ws
    exact List.filter_sublist ws
  · intro st term
    rfl

/-- C8: searching with the empty term returns the full collection unchanged
and in the same order. -/
theorem search_empty_identity (ws : List Word) : filteredWords "" ws = ws := by
  apply List.filter_eq_self.mpr
  intro w _
  simp [wordMatches, jsIncludes, jsToLower]

/-- C9: when the AI call fails or its response cannot be parsed, each handler
produces exactly the old state with an error message set and the busy flag
cleared: both collections, both storage snapshots, and the pending input are
untouched. -/
theorem failures_set_error_and_preserve_state :
    (∀ (st : AppState) (msg newId : String) (outcome : TranslateOutcome),
        (jsTrim st.newMyanmarWord).data.isEmpty = false →
        (outcome = .apiError msg ∨ outcome = .parseError msg) →
        step st (.saveWord true outcome newId) =
          { st with loading := false, error := some msg }) ∧
    (∀ (st : AppState) (newId : String), ¬ st.words.length < 2 →
        step st (.generateSentence true .failure newId) =
          { st with loading := false, error := some genFailureMsg }) := by
  constructor
  · rintro st msg newId outcome hne (rfl | rfl) <;> simp [step, handleSaveWord, hne]
  · intro st newId h
    simp [step, handleGenerateSentence, h]

/-- Witness for C9 at a concrete state and failing call. -/
theorem failures_set_error_and_preserve_state_witness :
    step sampleState (.saveWord true (.apiError "boom") "9") =
      { sampleState with loading := false, error := some "boom" } :=
  failures_set_error_and_preserve_state.1 sampleState "boom" "9" (.apiError "boom")
    (by decide) (Or.inl rfl)

/-- C10: invoking save-word with an input that is empty or whitespace-only
returns the state entirely unchanged, before any AI interaction: no error is
set, the busy flag is untouched, and both collections and the input field
keep their values. -/
theorem saveWord_blank_input_noop (st : AppState) (avail : Bool)
    (outcome : TranslateOutcome) (newId : String)
    (h : (jsTrim st.newMyanmarWord).data.isEmpty = true) :
    step st (.saveWord avail outcome newId) = st := by
  simp [step, handleSaveWord, h]

/-- Witness for C10 at a whitespace-only input. -/
theorem saveWord_blank_input_noop_witness :
    step { sampleState with newMyanmarWord := "   " } (.saveWord true (.parsed "a" "b") "9") =
      { sampleState with newMyanmarWord := "   " } :=
  saveWord_blank_input_noop { sampleState with newMyanmarWord := "   " } true
    (.parsed "a" "b") "9" (by decide)

end SmartTalk
